import Mathlib

/-!
Shallow embedding of the Order Processing & Real-Time Notification Subsystem
of the digital-menu backend (Django): `apps/orders/models.py`,
`apps/orders/api/serializers.py`, `apps/orders/api/views.py`,
`apps/orders/signals.py`, and the identity part of `apps/users/models.py`.

Monetary amounts (Django `DecimalField(max_digits=10, decimal_places=2)`) are
embedded as integer cents (`Nat`); all arithmetic performed by the code on
them (products and sums of two-decimal values) is exact, so the embedding is
faithful.  Database rows are Lean structures; the user table is a list inside
a `Db` record together with the autoincrement counters.  Each Django
`post_save` signal emission is embedded by collecting the events the signal
handler would publish into an explicit trace.
-/

namespace OrdersSpec

deriving instance DecidableEq for Except

/-- Drop leading and trailing whitespace from a character list. -/
def stripChars (l : List Char) : List Char :=
  ((l.dropWhile Char.isWhitespace).reverse.dropWhile Char.isWhitespace).reverse

/-- Python `str.strip()`, implemented structurally over the character list so
that concrete instances evaluate. -/
def pyStrip (s : String) : String := String.mk (stripChars s.toList)

/-- Money in integer cents: `Decimal('10.00')` is `1000`. -/
abbrev Cents := Nat

/-- Catalog product as consumed by the order core: `products.Product` with its
`price` (cents) and `available` flag. -/
structure Product where
  id : Nat
  price : Cents
  available : Bool
deriving Repr, DecidableEq

/-- `orders.models.OrderItem` row: product reference, quantity, price snapshot,
derived subtotal, opaque customization payload. -/
structure OrderItem where
  productId : Nat
  quantity : Nat
  unit_price : Cents
  subtotal : Cents
  customization : Option String
deriving Repr, DecidableEq

/-- `OrderItem.save`: `self.subtotal = self.quantity * self.unit_price` then
the row is stored. -/
def OrderItem.save (it : OrderItem) : OrderItem :=
  { it with subtotal := it.quantity * it.unit_price }

/-- `orders.models.Order` row.  `status` is a plain string exactly as the
`CharField` stores it; `notes` is nullable. -/
structure Order where
  id : Nat
  userId : Nat
  status : String
  total_price : Cents
  delivery_street : String
  delivery_house_number : String
  delivery_location : String
  phone : String
  notes : Option String
  items : List OrderItem
deriving Repr, DecidableEq

/-- `Order.STATUS_CHOICES` as literally declared in `orders/models.py`:
four values; `'draft'` is not among them. -/
def STATUS_CHOICES : List String := ["pending", "confirmed", "completed", "cancelled"]

/-- `Order.calculate_total`: `self.total_price = sum(item.subtotal for item in
self.items.all())`. -/
def Order.calculate_total (o : Order) : Order :=
  { o with total_price := (o.items.map OrderItem.subtotal).sum }

/-- `users.models.User` row: the fields the order core reads.  `role` has model
default `'client'`; `phone` is nullable, embedded as a string with `""` for
null. -/
structure UserRec where
  id : Nat
  username : String
  email : String
  name : String
  phone : String
  role : String
  is_staff : Bool
deriving Repr, DecidableEq

/-- Backing store: the user table plus the autoincrement primary-key counters
(every stored user id is below `nextUserId`; the next order gets
`nextOrderId`). -/
structure Db where
  users : List UserRec
  nextUserId : Nat
  nextOrderId : Nat
deriving Repr, DecidableEq

/-! ### Notification signal (`orders/signals.py`, `order_notification`) -/

/-- String form of a two-decimal amount, as Python `str(Decimal(...))` shows
the stored `total_price` (e.g. `"0.00"`, `"25.00"`). -/
def formatCents (c : Cents) : String :=
  toString (c / 100) ++ "." ++
    (if c % 100 < 10 then "0" ++ toString (c % 100) else toString (c % 100))

/-- The composed delivery string of the signal payload:
`f"{street}, {house_number}, {location}"`. -/
def deliveryAddress (o : Order) : String :=
  o.delivery_street ++ ", " ++ o.delivery_house_number ++ ", " ++ o.delivery_location

/-- The event envelope built by `order_notification`, together with the list of
channel-layer groups it is sent to.  Timestamp fields are omitted (no claim
mentions them). -/
structure NotificationEvent where
  action : String
  order_id : Nat
  status : String
  total_price : String
  user_id : Nat
  delivery_address : String
  phone : String
  notes : String
  items_count : Nat
  channels : List String
deriving Repr, DecidableEq

/-- One event payload as `order_notification` builds it, delivered to the
`orders_staff` group and to `f"orders_user_{instance.user.id}"`. -/
def mkEvent (action : String) (o : Order) : NotificationEvent :=
  { action := action
    order_id := o.id
    status := o.status
    total_price := formatCents o.total_price
    user_id := o.userId
    delivery_address := deliveryAddress o
    phone := o.phone
    notes := o.notes.getD ""
    items_count := o.items.length
    channels := ["orders_staff", "orders_user_" ++ toString o.userId] }

/-- `order_notification(sender, instance, created)`: skip drafts; classify a
non-created save with resulting status `'pending'` as `'created'`; otherwise
`'created'` on row creation and `'updated'` else. -/
def orderNotification (created : Bool) (o : Order) : List NotificationEvent :=
  if o.status = "draft" then []
  else if ¬ created ∧ o.status = "pending" then [mkEvent "created" o]
  else if created then [mkEvent "created" o]
  else [mkEvent "updated" o]

/-! ### Order creation (`OrderCreateSerializer`) -/

/-- One entry of the `items` list of a create payload: a JSON dict whose
`product` / `quantity` keys may be absent. -/
structure ItemReq where
  product : Option Nat
  quantity : Option Nat
  customization : Option String
deriving Repr, DecidableEq

/-- `Product.objects.get(id=pid)` against the catalog. -/
def findProduct (catalog : List Product) (pid : Nat) : Option Product :=
  catalog.find? (fun p => p.id == pid)

/-- The create payload: the serializer's writable fields.  `None` embeds an
absent key. -/
structure OrderPayload where
  delivery_street : Option String
  delivery_house_number : Option String
  delivery_location : Option String
  phone : Option String
  notes : Option String
  items : List ItemReq
deriving Repr, DecidableEq

/-- DRF `CharField` validation for a required model field: present, and not
blank after whitespace trimming; the trimmed value is stored. -/
def validateCharField (v : Option String) : Except String String :=
  match v with
  | none => .error "This field is required."
  | some s =>
      let t := pyStrip s
      if t = "" then .error "This field may not be blank." else .ok t

/-- Field-level validation of the four required character fields of
`OrderCreateSerializer` (street, house number, location, phone). -/
def validateFields (p : OrderPayload) : Except String (String × String × String × String) :=
  match validateCharField p.delivery_street with
  | .error e => .error e
  | .ok street =>
    match validateCharField p.delivery_house_number with
    | .error e => .error e
    | .ok hn =>
      match validateCharField p.delivery_location with
      | .error e => .error e
      | .ok loc =>
        match validateCharField p.phone with
        | .error e => .error e
        | .ok ph => .ok (street, hn, loc, ph)

/-- Per-item checks of `validate_items`: key presence, product existence,
availability, `quantity >= 1` (a negative or zero quantity fails the same
`< 1` comparison). -/
def validateItem (catalog : List Product) (it : ItemReq) : Except String Unit :=
  match it.product, it.quantity with
  | none, _ => .error "Each item must have product and quantity fields."
  | some _, none => .error "Each item must have product and quantity fields."
  | some pid, some q =>
    match findProduct catalog pid with
    | none => .error "Product does not exist."
    | some pr =>
      if ¬ pr.available then .error "Product is not available."
      else if q < 1 then .error "Quantity must be at least 1."
      else .ok ()

/-- The loop of `validate_items` over the item list. -/
def validateItems (catalog : List Product) : List ItemReq → Except String Unit
  | [] => .ok ()
  | it :: rest =>
    match validateItem catalog it with
    | .error e => .error e
    | .ok _ => validateItems catalog rest

/-- The item-creation loop of `OrderCreateSerializer.create`: for each request
item, fetch the product and `OrderItem.objects.create(...)` with the current
catalog price snapshot (`save` computes the subtotal).  The error branches are
unreachable after `validate_items` succeeded (`buildItems_ok_of_validate`). -/
def buildItems (catalog : List Product) : List ItemReq → Except String (List OrderItem)
  | [] => .ok []
  | it :: rest =>
    match it.product, it.quantity with
    | some pid, some q =>
      match findProduct catalog pid with
      | some pr =>
        match buildItems catalog rest with
        | .ok tl =>
            .ok (OrderItem.save
              { productId := pid, quantity := q, unit_price := pr.price,
                subtotal := 0, customization := it.customization } :: tl)
        | .error e => .error e
      | none => .error "Product.DoesNotExist"
    | _, _ => .error "KeyError"

/-- Outcome of a successful `OrderCreateSerializer.save`: the final order row,
the trace of notification events its saves published, and how many times the
order row was saved. -/
structure CreateResult where
  order : Order
  events : List NotificationEvent
  orderSaves : Nat
deriving Repr, DecidableEq

/-- `OrderCreateSerializer`: `is_valid(raise_exception=True)` followed by
`create`.  `Order.objects.create(**validated_data)` stores the row with the
model defaults `status='pending'` (the serializer has no `status` field) and
`total_price=Decimal('0.00')`, firing `post_save` with `created=True`; the
items are then created, and `calculate_total()` plus `order.save()` fire
`post_save` again with `created=False`. -/
def orderCreateSerializer (catalog : List Product) (oid : Nat) (user : UserRec)
    (p : OrderPayload) : Except String CreateResult :=
  match validateFields p with
  | .error e => .error e
  | .ok (street, hn, loc, ph) =>
    if p.items.isEmpty then .error "Order must have at least one item."
    else
      match validateItems catalog p.items with
      | .error e => .error e
      | .ok _ =>
        match buildItems catalog p.items with
        | .error e => .error e
        | .ok its =>
          let order0 : Order :=
            { id := oid, userId := user.id, status := "pending", total_price := 0,
              delivery_street := street, delivery_house_number := hn,
              delivery_location := loc, phone := ph, notes := p.notes, items := [] }
          let ev0 := orderNotification true order0
          let order1 := Order.calculate_total { order0 with items := its }
          let ev1 := orderNotification false order1
          .ok { order := order1, events := ev0 ++ ev1, orderSaves := 2 }

/-! ### Status update and cancel endpoints (`orders/api/views.py`) -/

/-- `request.data.get(key)` over the PATCH body, embedded as an association
list. -/
def lookupPayload (payload : List (String × String)) (k : String) : Option String :=
  (payload.find? (fun kv => kv.fst == k)).map Prod.snd

/-- Body of `OrderViewSet.partial_update` after `self.get_object()` has
resolved the instance against the role-filtered queryset (the full endpoint,
including that 404 gate, is `orderPartialUpdateEndpoint`): non-staff actors
must own the order and may only request `'pending'` while the order is in
`'draft'` (else 403); then, if the body has a `status` key, that value is
assigned and saved (firing the notification signal); any other keys in the
body are ignored. -/
def orderPartialUpdate (actor : UserRec) (o : Order) (payload : List (String × String)) :
    Except Nat (Order × List NotificationEvent) :=
  if ¬ actor.is_staff ∧ o.userId ≠ actor.id then .error 403
  else if ¬ actor.is_staff ∧ (o.status ≠ "draft" ∨ lookupPayload payload "status" ≠ some "pending")
    then .error 403
  else
    match lookupPayload payload "status" with
    | some s =>
        let o2 := { o with status := s }
        .ok (o2, orderNotification false o2)
    | none => .ok (o, [])

/-- Body of `OrderViewSet.cancel` after `self.get_object()` has resolved the
order against the role-filtered queryset (the full endpoint, including that
404 gate, is `orderCancelEndpoint`): only the owner (403 otherwise; for a
non-staff caller this check is unreachable, the queryset already being
owner-filtered); only from `'pending'` or `'confirmed'` (400 otherwise); then
`status='cancelled'` is saved. -/
def orderCancel (actor : UserRec) (o : Order) :
    Except Nat (Order × List NotificationEvent) :=
  if o.userId ≠ actor.id then .error 403
  else if o.status ≠ "pending" ∧ o.status ≠ "confirmed" then .error 400
  else
    let o2 := { o with status := "cancelled" }
    .ok (o2, orderNotification false o2)

/-! ### Listing and retrieval visibility (`get_queryset` / `retrieve`) -/

/-- `OrderViewSet.get_queryset`: staff see every order except drafts; other
users see exactly their own orders. -/
def visibleOrders (viewer : UserRec) (orders : List Order) : List Order :=
  if viewer.is_staff then orders.filter (fun o => !(o.status == "draft"))
  else orders.filter (fun o => o.userId == viewer.id)

/-- `OrderViewSet.retrieve`: `get_object` resolves against the filtered
queryset (404 when invisible), then a second owner-or-staff check returns 403. -/
def retrieveOrder (viewer : UserRec) (orders : List Order) (oid : Nat) :
    Except Nat Order :=
  match (visibleOrders viewer orders).find? (fun o => o.id == oid) with
  | none => .error 404
  | some o =>
    if o.userId ≠ viewer.id ∧ ¬ viewer.is_staff then .error 403
    else .ok o

/-- The full `PATCH /api/orders/{id}/` endpoint: `self.get_object()` resolves
the id against the role-filtered queryset — a miss (for a non-staff caller,
any order that is not their own) is a 404 — and the update body then runs on
the resolved instance. -/
def orderPartialUpdateEndpoint (actor : UserRec) (orders : List Order) (oid : Nat)
    (payload : List (String × String)) : Except Nat (Order × List NotificationEvent) :=
  match (visibleOrders actor orders).find? (fun o => o.id == oid) with
  | none => .error 404
  | some o => orderPartialUpdate actor o payload

/-- The full `POST /api/orders/{id}/cancel/` endpoint: `self.get_object()`
resolves the id against the role-filtered queryset (404 on a miss, so a
non-staff caller never reaches the body with someone else's order), then the
cancel body runs on the resolved order. -/
def orderCancelEndpoint (actor : UserRec) (orders : List Order) (oid : Nat) :
    Except Nat (Order × List NotificationEvent) :=
  match (visibleOrders actor orders).find? (fun o => o.id == oid) with
  | none => .error 404
  | some o => orderCancel actor o

/-! ### Identity resolution and guest checkout
(`users/models.py` `UserManager.create_user`, `orders/api/views.py`
`OrderViewSet.guest_checkout`) -/

/-- Lowercase every character of a string (structurally, over the character
list). -/
def lowerString (s : String) : String := String.mk (s.toList.map Char.toLower)

/-- Split a character list at the LAST occurrence of `c`: `rsplit(c, 1)`. -/
def rsplitAtChar (c : Char) : List Char → Option (List Char × List Char)
  | [] => none
  | x :: xs =>
    match rsplitAtChar c xs with
    | some (a, b) => some (x :: a, b)
    | none => if x = c then some ([], xs) else none

/-- Django `BaseUserManager.normalize_email` (called by `create_user`): strip,
split at the last `'@'` and lowercase the domain part; an address without
`'@'` is returned unchanged. -/
def normalize_email (email : String) : String :=
  match rsplitAtChar '@' (pyStrip email).toList with
  | none => email
  | some (nm, dom) => String.mk nm ++ "@" ++ lowerString (String.mk dom)

/-- Characters before the FIRST occurrence of `c`: Python `s.split(c)[0]`. -/
def takeUntilChar (c : Char) : List Char → List Char
  | [] => []
  | x :: xs => if x = c then [] else x :: takeUntilChar c xs

/-- `guest_email.split('@')[0]`, the base of the synthesized guest username. -/
def emailLocalPart (email : String) : String :=
  String.mk (takeUntilChar '@' email.toList)

/-- `UserManager.create_user`: reject an empty email, store the normalized
email, default `role='client'` / `is_staff=False`; the database's
`unique=True` constraints on `email` and `username` make the insert fail
(IntegrityError) on a duplicate. -/
def create_user (db : Db) (username email nm : String) :
    Except String (UserRec × Db) :=
  if email = "" then .error "you need to provide an email"
  else if db.users.any (fun u => u.email == normalize_email email) then
    .error "IntegrityError: email"
  else if db.users.any (fun u => u.username == username) then
    .error "IntegrityError: username"
  else
    .ok ({ id := db.nextUserId, username := username, email := normalize_email email,
           name := nm, phone := "", role := "client", is_staff := false },
         { db with
           users := db.users ++
             [{ id := db.nextUserId, username := username, email := normalize_email email,
                name := nm, phone := "", role := "client", is_staff := false }],
           nextUserId := db.nextUserId + 1 })

/-- `user.save()` after mutating fields in memory: replace the row with the
matching primary key. -/
def saveUser (db : Db) (u : UserRec) : Db :=
  { db with users := db.users.map (fun x => if x.id == u.id then u else x) }

/-- The guest-checkout request body, plus the random hex suffix
`secrets.token_hex(4)` drawn for the synthesized username (an input of the
embedding, since it is the only nondeterminism in the flow). -/
structure GuestRequest where
  guest_name : String
  guest_email : String
  guest_phone : String
  delivery_street : Option String
  delivery_house_number : Option String
  delivery_location : Option String
  notes : Option String
  items : List ItemReq
  usernameToken : String
deriving Repr, DecidableEq

/-- The HTTP outcome of `guest_checkout`: status code, the order of a 201
response, the resolved principal id, the database after commit or rollback,
the published notification events, and the number of order-row saves. -/
structure GuestOutcome where
  statusCode : Nat
  order : Option Order
  guestUserId : Option Nat
  db : Db
  events : List NotificationEvent
  orderSaves : Nat
deriving Repr, DecidableEq

/-- The `order_data` dict `guest_checkout` feeds to `OrderCreateSerializer`:
delivery fields from the request, the guest phone, `notes` defaulted to
`''`. -/
def guestOrderPayload (phone : String) (r : GuestRequest) : OrderPayload :=
  { delivery_street := r.delivery_street
    delivery_house_number := r.delivery_house_number
    delivery_location := r.delivery_location
    phone := some phone
    notes := some (r.notes.getD "")
    items := r.items }

/-- Tail of `guest_checkout` after identity resolution: run the serializer
(on failure the raised ValidationError aborts the surrounding
`transaction.atomic`, rolling the database back to `db0` with no events),
then set `status='pending'` and save once more, publishing a third event. -/
def guestFinishOrder (catalog : List Product) (db0 dbW : Db) (gu : UserRec)
    (phone : String) (r : GuestRequest) : GuestOutcome :=
  match orderCreateSerializer catalog dbW.nextOrderId gu (guestOrderPayload phone r) with
  | .error _ =>
      { statusCode := 400, order := none, guestUserId := none, db := db0,
        events := [], orderSaves := 0 }
  | .ok res =>
      { statusCode := 201, order := some { res.order with status := "pending" },
        guestUserId := some gu.id,
        db := { dbW with nextOrderId := dbW.nextOrderId + 1 },
        events := res.events ++ orderNotification false { res.order with status := "pending" },
        orderSaves := res.orderSaves + 1 }

/-- The synthesized guest username
`f"guest_{guest_email.split('@')[0]}_{secrets.token_hex(4)}"`. -/
def guestUsername (email token : String) : String :=
  "guest_" ++ emailLocalPart email ++ "_" ++ token

/-- `OrderViewSet.guest_checkout`: strip the guest fields and reject blanks
with 400; look the email up by exact match; a non-guest hit is a 409 conflict;
a guest hit is reused (phone updated when it changed); a miss synthesizes a
new guest account (`create_user`, then `role='guest'`, phone, save); finally
the order is created and driven to `'pending'`. -/
def guestCheckout (catalog : List Product) (db : Db) (r : GuestRequest) : GuestOutcome :=
  if (pyStrip r.guest_name) = "" ∨ (pyStrip r.guest_email) = "" ∨ (pyStrip r.guest_phone) = "" then
    { statusCode := 400, order := none, guestUserId := none, db := db,
      events := [], orderSaves := 0 }
  else
    match db.users.find? (fun u => u.email == (pyStrip r.guest_email)) with
    | some eu =>
      if eu.role ≠ "guest" then
        { statusCode := 409, order := none, guestUserId := none, db := db,
          events := [], orderSaves := 0 }
      else if eu.phone ≠ (pyStrip r.guest_phone) then
        guestFinishOrder catalog db (saveUser db { eu with phone := (pyStrip r.guest_phone) })
          { eu with phone := (pyStrip r.guest_phone) } ((pyStrip r.guest_phone)) r
      else
        guestFinishOrder catalog db db eu ((pyStrip r.guest_phone)) r
    | none =>
      match create_user db (guestUsername ((pyStrip r.guest_email)) r.usernameToken)
          ((pyStrip r.guest_email)) ((pyStrip r.guest_name)) with
      | .error _ =>
          { statusCode := 500, order := none, guestUserId := none, db := db,
            events := [], orderSaves := 0 }
      | .ok (u0, db1) =>
          guestFinishOrder catalog db
            (saveUser db1 { u0 with role := "guest", phone := (pyStrip r.guest_phone) })
            { u0 with role := "guest", phone := (pyStrip r.guest_phone) } ((pyStrip r.guest_phone)) r

/-- Number of stored accounts whose email equals `e`. -/
def emailCount (l : List UserRec) (e : String) : Nat :=
  l.countP (fun u => u.email == e)

/-- Is an `Except` result a success? -/
def isOkE : Except ε α → Bool
  | .ok _ => true
  | .error _ => false

/-! ## Concrete sample data used by witnesses and counterexamples -/

/-- Catalog with product A (10.00) and product B (5.00), both available. -/
def sampleCatalog : List Product :=
  [{ id := 1, price := 1000, available := true },
   { id := 2, price := 500, available := true }]

/-- The spec's scenario items: `[{product A, qty 2}, {product B, qty 1}]`. -/
def sampleItems : List ItemReq :=
  [{ product := some 1, quantity := some 2, customization := none },
   { product := some 2, quantity := some 1, customization := none }]

/-- A registered non-staff customer. -/
def sampleUser : UserRec :=
  { id := 7, username := "carla", email := "carla@shop.test", name := "Carla",
    phone := "600111222", role := "client", is_staff := false }

/-- A staff member. -/
def staffUser : UserRec :=
  { id := 2, username := "boss", email := "boss@shop.test", name := "Boss",
    phone := "600000000", role := "boss", is_staff := true }

/-- A well-formed create payload for the scenario order. -/
def samplePayload : OrderPayload :=
  { delivery_street := some "Calle Principal", delivery_house_number := some "123",
    delivery_location := some "Ardales", phone := some "600111222",
    notes := none, items := sampleItems }

/-- An order of `sampleUser` sitting in `'pending'`. -/
def ownPendingOrder : Order :=
  { id := 11, userId := 7, status := "pending", total_price := 2500,
    delivery_street := "Calle Principal", delivery_house_number := "123",
    delivery_location := "Ardales", phone := "600111222", notes := none, items := [] }

/-- The same order already `'completed'`. -/
def ownCompletedOrder : Order := { ownPendingOrder with id := 12, status := "completed" }

/-- An order of `sampleUser` in `'draft'` status. -/
def draftOrder : Order := { ownPendingOrder with id := 13, status := "draft" }

/-- An empty user table with fresh counters. -/
def emptyDb : Db := { users := [], nextUserId := 1, nextOrderId := 1 }

/-- A full (non-guest) account registered under `bob@x.com`. -/
def clientAccount : UserRec :=
  { id := 3, username := "bob", email := "bob@x.com", name := "Bob",
    phone := "999", role := "client", is_staff := false }

/-- A user table holding only `clientAccount`. -/
def dbWithClient : Db := { users := [clientAccount], nextUserId := 4, nextOrderId := 1 }

/-- A guest checkout request with a valid item list and a lowercase email. -/
def sampleGuestReq : GuestRequest :=
  { guest_name := "Ann", guest_email := "ann@example.com", guest_phone := "611222333",
    delivery_street := some "Main", delivery_house_number := some "1",
    delivery_location := some "Town", notes := none, items := sampleItems,
    usernameToken := "a1b2c3d4" }

/-- The same request re-submitted with a fresh random username suffix. -/
def sampleGuestReq2 : GuestRequest := { sampleGuestReq with usernameToken := "e5f6a7b8" }

/-- A guest checkout request whose email has an uppercase domain part. -/
def mixedCaseReq : GuestRequest := { sampleGuestReq with guest_email := "ann@EXAMPLE.com" }

/-- Its resubmission with a fresh random username suffix. -/
def mixedCaseReq2 : GuestRequest := { mixedCaseReq with usernameToken := "e5f6a7b8" }

/-- A guest checkout request carrying `bob@x.com` (bound to `clientAccount`)
but a blank guest name. -/
def blankNameReq : GuestRequest := { sampleGuestReq with guest_name := " ", guest_email := "bob@x.com" }

/-! ## Basic lemmas about the embedded operations -/

theorem formatCents_zero : formatCents 0 = "0.00" := rfl

theorem orderNotification_draft (created : Bool) (o : Order) (h : o.status = "draft") :
    orderNotification created o = [] := by
  simp [orderNotification, h]

theorem orderNotification_confirm (o : Order) (h : o.status = "pending") :
    orderNotification false o = [mkEvent "created" o] := by
  have hd : o.status ≠ "draft" := by rw [h]; decide
  simp [orderNotification, hd, h]

theorem orderNotification_row_created (o : Order) (h : o.status ≠ "draft") :
    orderNotification true o = [mkEvent "created" o] := by
  by_cases hp : o.status = "pending" <;> simp [orderNotification, h, hp]

/-- Any save of an order in `'pending'` publishes one `'created'` event,
whether or not the save was a row creation. -/
theorem orderNotification_pending (created : Bool) (o : Order) (h : o.status = "pending") :
    orderNotification created o = [mkEvent "created" o] := by
  cases created
  · exact orderNotification_confirm o h
  · exact orderNotification_row_created o (by rw [h]; decide)

theorem calculate_total_items (o : Order) :
    (Order.calculate_total o).items = o.items := rfl

theorem calculate_total_sum (o : Order) :
    (Order.calculate_total o).total_price =
      ((Order.calculate_total o).items.map OrderItem.subtotal).sum := rfl

/-- A successful `validate_items` item check pins down the shape of the item:
both keys present and the product found in the catalog. -/
theorem validateItem_ok {catalog : List Product} {it : ItemReq}
    (h : validateItem catalog it = .ok ()) :
    ∃ pid q pr, it.product = some pid ∧ it.quantity = some q ∧
      findProduct catalog pid = some pr := by
  unfold validateItem at h
  split at h
  · exact absurd h (by simp)
  · exact absurd h (by simp)
  · next pid q h1 h2 =>
      split at h
      · exact absurd h (by simp)
      · next pr hf =>
          exact ⟨pid, q, pr, h1, h2, hf⟩

/-- After `validate_items` succeeded, the item-creation loop cannot fail: each
product lookup it repeats was already checked. -/
theorem buildItems_ok_of_validate (catalog : List Product) :
    ∀ l : List ItemReq, validateItems catalog l = .ok () →
      ∃ its, buildItems catalog l = .ok its := by
  intro l
  induction l with
  | nil => intro _; exact ⟨[], rfl⟩
  | cons it rest ih =>
      intro h
      unfold validateItems at h
      split at h
      · exact absurd h (by simp)
      · next u hvi =>
          cases u
          obtain ⟨pid, q, pr, hp, hq, hf⟩ := validateItem_ok hvi
          obtain ⟨tl, htl⟩ := ih h
          unfold buildItems
          rw [hp, hq]
          dsimp only
          rw [hf, htl]
          exact ⟨_, rfl⟩

/-- Characterization of a successful `OrderCreateSerializer.save`: the stored
order is in `'pending'` with the derived total, the row was saved twice, and
exactly two notification events were published, both classified `'created'`
and both addressed to the staff channel and to the owner channel; the first
was emitted before any line item existed (zero count, total `"0.00"`). -/
theorem serializer_ok_spec {catalog : List Product} {oid : Nat} {user : UserRec}
    {p : OrderPayload} {res : CreateResult}
    (h : orderCreateSerializer catalog oid user p = .ok res) :
    res.order.status = "pending" ∧
    res.order.id = oid ∧
    res.order.userId = user.id ∧
    res.order.total_price = (res.order.items.map OrderItem.subtotal).sum ∧
    res.orderSaves = 2 ∧
    ∃ e0 e1, res.events = [e0, e1] ∧
      e0.action = "created" ∧ e1.action = "created" ∧
      e0.status = "pending" ∧ e1.status = "pending" ∧
      e0.total_price = "0.00" ∧ e0.items_count = 0 ∧
      e0.channels = ["orders_staff", "orders_user_" ++ toString user.id] ∧
      e1.channels = ["orders_staff", "orders_user_" ++ toString user.id] := by
  unfold orderCreateSerializer at h
  split at h
  · exact absurd h (by simp)
  · next street hn loc ph hv =>
      split at h
      · exact absurd h (by simp)
      · split at h
        · exact absurd h (by simp)
        · split at h
          · exact absurd h (by simp)
          · next its hb =>
              simp only [Except.ok.injEq] at h
              subst h
              refine ⟨rfl, rfl, rfl, rfl, rfl,
                mkEvent "created"
                  { id := oid, userId := user.id, status := "pending", total_price := 0,
                    delivery_street := street, delivery_house_number := hn,
                    delivery_location := loc, phone := ph, notes := p.notes, items := [] },
                mkEvent "created"
                  (Order.calculate_total
                    { id := oid, userId := user.id, status := "pending", total_price := 0,
                      delivery_street := street, delivery_house_number := hn,
                      delivery_location := loc, phone := ph, notes := p.notes, items := its }),
                ?_, rfl, rfl, rfl, rfl, formatCents_zero, rfl, rfl, rfl⟩
              show orderNotification true _ ++ orderNotification false _ = _
              rw [orderNotification_pending, orderNotification_pending]
              all_goals rfl

/-! ## Lemmas about the guest-checkout flow -/

/-- Whether the serializer succeeds depends only on the catalog and the
payload, not on the assigned order id or the owner. -/
theorem serializer_ok_independent {catalog : List Product} {oid : Nat} {user : UserRec}
    {p : OrderPayload} {res : CreateResult}
    (h : orderCreateSerializer catalog oid user p = .ok res) (oid' : Nat) (user' : UserRec) :
    ∃ res', orderCreateSerializer catalog oid' user' p = .ok res' := by
  unfold orderCreateSerializer at h ⊢
  split at h
  · exact absurd h (by simp)
  · split at h
    · exact absurd h (by simp)
    · next he =>
        split at h
        · exact absurd h (by simp)
        · split at h
          · exact absurd h (by simp)
          · rw [if_neg he]
            exact ⟨_, rfl⟩

/-- A non-201 outcome of the serializer-and-confirm tail is the 400 rollback:
no order, no events, database restored to the pre-request state. -/
theorem finish_fail_spec {catalog : List Product} {db0 dbW : Db} {gu : UserRec}
    {phone : String} {r : GuestRequest}
    (h : (guestFinishOrder catalog db0 dbW gu phone r).statusCode ≠ 201) :
    guestFinishOrder catalog db0 dbW gu phone r =
      { statusCode := 400, order := none, guestUserId := none, db := db0,
        events := [], orderSaves := 0 } := by
  rcases hser : orderCreateSerializer catalog dbW.nextOrderId gu (guestOrderPayload phone r)
    with e | res
  · unfold guestFinishOrder
    rw [hser]
  · exfalso
    apply h
    unfold guestFinishOrder
    rw [hser]

/-- A 201 outcome of the tail comes from a successful serializer run; it
commits `dbW`, bumps the order counter, returns the confirmed order and the
guest's id, and appends the confirmation save's event to the trace. -/
theorem finish_201_spec {catalog : List Product} {db0 dbW : Db} {gu : UserRec}
    {phone : String} {r : GuestRequest}
    (h : (guestFinishOrder catalog db0 dbW gu phone r).statusCode = 201) :
    ∃ res, orderCreateSerializer catalog dbW.nextOrderId gu (guestOrderPayload phone r) = .ok res ∧
      guestFinishOrder catalog db0 dbW gu phone r =
        { statusCode := 201, order := some { res.order with status := "pending" },
          guestUserId := some gu.id, db := { dbW with nextOrderId := dbW.nextOrderId + 1 },
          events := res.events ++ orderNotification false { res.order with status := "pending" },
          orderSaves := res.orderSaves + 1 } := by
  rcases hser : orderCreateSerializer catalog dbW.nextOrderId gu (guestOrderPayload phone r)
    with e | res
  · exfalso
    unfold guestFinishOrder at h
    rw [hser] at h
    dsimp only at h
    exact absurd h (by decide)
  · refine ⟨res, rfl, ?_⟩
    unfold guestFinishOrder
    rw [hser]

/-- `guest_checkout` either rejects before any write (400 / 409 / 500, the
database untouched, nothing published) or hands a resolved guest principal to
the order-creation tail. -/
theorem guestCheckout_shape (catalog : List Product) (db : Db) (r : GuestRequest) :
    (∃ code, code ≠ 201 ∧ guestCheckout catalog db r =
       { statusCode := code, order := none, guestUserId := none, db := db,
         events := [], orderSaves := 0 }) ∨
    (∃ gu dbW, gu.role = "guest" ∧ gu.phone = (pyStrip r.guest_phone) ∧
       guestCheckout catalog db r = guestFinishOrder catalog db dbW gu ((pyStrip r.guest_phone)) r) := by
  unfold guestCheckout
  split
  · exact .inl ⟨400, by decide, rfl⟩
  · split
    · next eu hfind =>
        by_cases hrole : eu.role ≠ "guest"
        · rw [if_pos hrole]
          exact .inl ⟨409, by decide, rfl⟩
        · rw [if_neg hrole]
          by_cases hph : eu.phone ≠ (pyStrip r.guest_phone)
          · rw [if_pos hph]
            exact .inr ⟨{ eu with phone := (pyStrip r.guest_phone) },
              saveUser db { eu with phone := (pyStrip r.guest_phone) },
              of_not_not hrole, rfl, rfl⟩
          · rw [if_neg hph]
            exact .inr ⟨eu, db, of_not_not hrole, of_not_not hph, rfl⟩
    · next hfind =>
        split
        · exact .inl ⟨500, by decide, rfl⟩
        · next u0 db1 hcreate =>
            exact .inr ⟨{ u0 with role := "guest", phone := (pyStrip r.guest_phone) },
              saveUser db1 { u0 with role := "guest", phone := (pyStrip r.guest_phone) },
              rfl, rfl, rfl⟩

/-- A guest checkout that does not return 201 publishes nothing, creates no
order, performs no save and leaves the database unchanged. -/
theorem guest_fail_spec {catalog : List Product} {db : Db} {r : GuestRequest}
    (h : (guestCheckout catalog db r).statusCode ≠ 201) :
    (guestCheckout catalog db r).events = [] ∧ (guestCheckout catalog db r).db = db ∧
    (guestCheckout catalog db r).order = none ∧ (guestCheckout catalog db r).orderSaves = 0 := by
  rcases guestCheckout_shape catalog db r with ⟨code, hc, heq⟩ | ⟨gu, dbW, hrole, hph, heq⟩
  · rw [heq]
    exact ⟨rfl, rfl, rfl, rfl⟩
  · rw [heq] at h ⊢
    rw [finish_fail_spec h]
    exact ⟨rfl, rfl, rfl, rfl⟩

/-- Full characterization of a successful (201) guest checkout. -/
theorem guest_201_spec {catalog : List Product} {db : Db} {r : GuestRequest}
    (h : (guestCheckout catalog db r).statusCode = 201) :
    ∃ (gu : UserRec) (dbW : Db) (res : CreateResult),
      gu.role = "guest" ∧ gu.phone = (pyStrip r.guest_phone) ∧
      orderCreateSerializer catalog dbW.nextOrderId gu
        (guestOrderPayload ((pyStrip r.guest_phone)) r) = .ok res ∧
      guestCheckout catalog db r =
        { statusCode := 201, order := some { res.order with status := "pending" },
          guestUserId := some gu.id, db := { dbW with nextOrderId := dbW.nextOrderId + 1 },
          events := res.events ++ orderNotification false { res.order with status := "pending" },
          orderSaves := res.orderSaves + 1 } := by
  rcases guestCheckout_shape catalog db r with ⟨code, hc, heq⟩ | ⟨gu, dbW, hrole, hph, heq⟩
  · rw [heq] at h
    dsimp only at h
    exact absurd h hc
  · rw [heq] at h
    obtain ⟨res, hser, hfin⟩ := finish_201_spec h
    exact ⟨gu, dbW, res, hrole, hph, hser, heq.trans hfin⟩

/-! ## Lemmas about status updates, cancellation and visibility -/

/-- For a non-staff actor `partial_update` either replies 403 with no save, or
the actor owns a draft order, requested `'pending'`, and the confirmation is
saved. -/
theorem patch_nonstaff_cases (actor : UserRec) (o : Order) (payload : List (String × String))
    (hns : ¬ actor.is_staff) :
    orderPartialUpdate actor o payload = .error 403 ∨
    (o.userId = actor.id ∧ o.status = "draft" ∧
      lookupPayload payload "status" = some "pending" ∧
      orderPartialUpdate actor o payload =
        .ok ({ o with status := "pending" },
             orderNotification false { o with status := "pending" })) := by
  unfold orderPartialUpdate
  by_cases h1 : o.userId = actor.id
  · have hc1 : ¬(¬ actor.is_staff ∧ o.userId ≠ actor.id) := fun hh => hh.2 h1
    rw [if_neg hc1]
    by_cases h2 : o.status = "draft"
    · by_cases h3 : lookupPayload payload "status" = some "pending"
      · have hc2 : ¬(¬ actor.is_staff ∧ (o.status ≠ "draft" ∨
            lookupPayload payload "status" ≠ some "pending")) := by
          rintro ⟨-, hor⟩
          rcases hor with hd | hl
          · exact hd h2
          · exact hl h3
        refine .inr ⟨h1, h2, h3, ?_⟩
        rw [if_neg hc2, h3]
      · rw [if_pos ⟨hns, .inr h3⟩]
        exact .inl rfl
    · rw [if_pos ⟨hns, .inl h2⟩]
      exact .inl rfl
  · rw [if_pos ⟨hns, h1⟩]
    exact .inl rfl

/-- `cancel` trichotomy: 403 for a non-owner, 400 for an owner whose order is
not in `'pending'`/`'confirmed'`, and the saved cancellation otherwise. -/
theorem cancel_cases (actor : UserRec) (o : Order) :
    (o.userId ≠ actor.id ∧ orderCancel actor o = .error 403) ∨
    (o.userId = actor.id ∧ o.status ≠ "pending" ∧ o.status ≠ "confirmed" ∧
      orderCancel actor o = .error 400) ∨
    (o.userId = actor.id ∧ (o.status = "pending" ∨ o.status = "confirmed") ∧
      orderCancel actor o =
        .ok ({ o with status := "cancelled" },
             orderNotification false { o with status := "cancelled" })) := by
  unfold orderCancel
  by_cases h1 : o.userId = actor.id
  · rw [if_neg (fun hh => hh h1)]
    by_cases h2 : o.status = "pending"
    · rw [if_neg (fun hh => hh.1 h2)]
      exact .inr (.inr ⟨h1, .inl h2, rfl⟩)
    · by_cases h3 : o.status = "confirmed"
      · rw [if_neg (fun hh => hh.2 h3)]
        exact .inr (.inr ⟨h1, .inr h3, rfl⟩)
      · rw [if_pos ⟨h2, h3⟩]
        exact .inr (.inl ⟨h1, h2, h3, rfl⟩)
  · rw [if_pos h1]
    exact .inl ⟨h1, rfl⟩

/-- Every successful `partial_update` changes at most the status field. -/
theorem patch_frame {actor : UserRec} {o : Order} {payload : List (String × String)}
    {o2 : Order} {evs : List NotificationEvent}
    (h : orderPartialUpdate actor o payload = .ok (o2, evs)) :
    o2.id = o.id ∧ o2.userId = o.userId ∧ o2.total_price = o.total_price ∧
    o2.delivery_street = o.delivery_street ∧
    o2.delivery_house_number = o.delivery_house_number ∧
    o2.delivery_location = o.delivery_location ∧
    o2.phone = o.phone ∧ o2.notes = o.notes ∧ o2.items = o.items := by
  unfold orderPartialUpdate at h
  split at h
  · exact absurd h (by simp)
  · split at h
    · exact absurd h (by simp)
    · split at h
      · next s hs =>
          simp only [Except.ok.injEq, Prod.mk.injEq] at h
          rw [← h.1]
          exact ⟨rfl, rfl, rfl, rfl, rfl, rfl, rfl, rfl, rfl⟩
      · next hs =>
          simp only [Except.ok.injEq, Prod.mk.injEq] at h
          rw [← h.1]
          exact ⟨rfl, rfl, rfl, rfl, rfl, rfl, rfl, rfl, rfl⟩

/-- An order visible in some queryset while in `'draft'` belongs to the
viewer: staff listings exclude drafts and non-staff listings are
owner-filtered. -/
theorem visibleOrders_draft_owner (viewer : UserRec) (orders : List Order) (o : Order)
    (hmem : o ∈ visibleOrders viewer orders) (hdraft : o.status = "draft") :
    o.userId = viewer.id := by
  unfold visibleOrders at hmem
  by_cases hs : viewer.is_staff
  · rw [if_pos hs] at hmem
    have := (List.mem_filter.mp hmem).2
    rw [hdraft] at this
    simp at this
  · rw [if_neg hs] at hmem
    have := (List.mem_filter.mp hmem).2
    simpa using this

/-- Items produced by the creation loop all carry the derived subtotal. -/
theorem buildItems_subtotal (catalog : List Product) :
    ∀ (l : List ItemReq) (its : List OrderItem), buildItems catalog l = .ok its →
      ∀ it ∈ its, it.subtotal = it.quantity * it.unit_price := by
  intro l
  induction l with
  | nil =>
      intro its h
      simp only [buildItems, Except.ok.injEq] at h
      subst h
      intro it hit
      exact absurd hit (by simp)
  | cons x rest ih =>
      intro its h
      unfold buildItems at h
      split at h
      · split at h
        · split at h
          · next tl htl =>
              simp only [Except.ok.injEq] at h
              subst h
              intro it hit
              rcases List.mem_cons.mp hit with hhd | htail
              · subst hhd
                exact rfl
              · exact ih tl htl it htail
          · exact absurd h (by simp)
        · exact absurd h (by simp)
      · exact absurd h (by simp)

/-- A successful guest checkout publishes exactly three events (one per order
save), all classified `'created'`, all in status `'pending'`, all fanned out
to the staff channel and the owner channel; the first precedes the items. -/
theorem guest_201_events {catalog : List Product} {db : Db} {r : GuestRequest}
    (h : (guestCheckout catalog db r).statusCode = 201) :
    ∃ (o : Order) (e0 e1 e2 : NotificationEvent),
      (guestCheckout catalog db r).order = some o ∧
      (guestCheckout catalog db r).events = [e0, e1, e2] ∧
      (∀ e ∈ [e0, e1, e2], e.action = "created" ∧ e.status = "pending" ∧
        e.channels = ["orders_staff", "orders_user_" ++ toString o.userId]) ∧
      e0.total_price = "0.00" ∧ e0.items_count = 0 ∧
      (guestCheckout catalog db r).orderSaves = 3 ∧
      o.total_price = (o.items.map OrderItem.subtotal).sum ∧
      o.status = "pending" := by
  obtain ⟨gu, dbW, res, hrole, hph, hser, heq⟩ := guest_201_spec h
  obtain ⟨hst, hid, huid, htot, hsaves, e0, e1, hev, ha0, ha1, hs0, hs1, htp0, hic0, hch0, hch1⟩ :=
    serializer_ok_spec hser
  have hconf : orderNotification false { res.order with status := "pending" } =
      [mkEvent "created" { res.order with status := "pending" }] :=
    orderNotification_confirm _ rfl
  refine ⟨{ res.order with status := "pending" }, e0, e1,
    mkEvent "created" { res.order with status := "pending" }, ?_, ?_, ?_, htp0, hic0, ?_, ?_, rfl⟩
  · rw [heq]
  · rw [heq]
    dsimp only
    rw [hev, hconf]
    exact rfl
  · have huid' : ({ res.order with status := "pending" } : Order).userId = gu.id := huid
    intro e he
    rcases List.mem_cons.mp he with h0 | he
    · subst h0
      exact ⟨ha0, hs0, by rw [hch0, huid']⟩
    · rcases List.mem_cons.mp he with h1 | he
      · subst h1
        exact ⟨ha1, hs1, by rw [hch1, huid']⟩
      · rcases List.mem_cons.mp he with h2 | he
        · subst h2
          exact ⟨rfl, rfl, rfl⟩
        · exact absurd he (by simp)
  · rw [heq]
    dsimp only
    rw [hsaves]
  · exact htot

/-- The draft-confirmation transition saved by a non-staff owner. -/
theorem patch_confirm_ok (actor : UserRec) (o : Order) (payload : List (String × String))
    (h1 : o.userId = actor.id) (h2 : o.status = "draft")
    (h3 : lookupPayload payload "status" = some "pending") :
    orderPartialUpdate actor o payload =
      .ok ({ o with status := "pending" },
           orderNotification false { o with status := "pending" }) := by
  have hc1 : ¬(¬ actor.is_staff ∧ o.userId ≠ actor.id) := fun hh => hh.2 h1
  have hc2 : ¬(¬ actor.is_staff ∧ (o.status ≠ "draft" ∨
      lookupPayload payload "status" ≠ some "pending")) := by
    rintro ⟨-, hor⟩
    exact hor.elim (fun hd => hd h2) (fun hl => hl h3)
  unfold orderPartialUpdate
  rw [if_neg hc1, if_neg hc2, h3]

/-- A staff `partial_update` stores whatever status string the payload
carries, with no validation at all. -/
theorem patch_staff_ok (actor : UserRec) (o : Order) (payload : List (String × String))
    (s : String) (hs : actor.is_staff) (h3 : lookupPayload payload "status" = some s) :
    orderPartialUpdate actor o payload =
      .ok ({ o with status := s }, orderNotification false { o with status := s }) := by
  have hc1 : ¬(¬ actor.is_staff ∧ o.userId ≠ actor.id) := fun hh => hh.1 hs
  have hc2 : ¬(¬ actor.is_staff ∧ (o.status ≠ "draft" ∨
      lookupPayload payload "status" ≠ some "pending")) := fun hh => hh.1 hs
  unfold orderPartialUpdate
  rw [if_neg hc1, if_neg hc2, h3]

/-- The items stored by a successful serializer run are exactly the ones the
creation loop built. -/
theorem serializer_items {catalog : List Product} {oid : Nat} {user : UserRec}
    {p : OrderPayload} {res : CreateResult}
    (h : orderCreateSerializer catalog oid user p = .ok res) :
    ∃ its, buildItems catalog p.items = .ok its ∧ res.order.items = its := by
  unfold orderCreateSerializer at h
  split at h
  · exact absurd h (by simp)
  · split at h
    · exact absurd h (by simp)
    · split at h
      · exact absurd h (by simp)
      · split at h
        · exact absurd h (by simp)
        · next its hb =>
            simp only [Except.ok.injEq] at h
            subst h
            exact ⟨its, hb, rfl⟩

/-! ## The claims -/

/-- C1: for every order successfully created (authenticated create or guest
checkout), and after any recomputation, `total_price` equals the sum of the
items' subtotals; in particular items `[{qty 2, unit 10.00}, {qty 1,
unit 5.00}]` give total `25.00`. -/
theorem C1_total_is_sum_of_subtotals :
    (∀ (catalog : List Product) (oid : Nat) (user : UserRec) (p : OrderPayload)
       (res : CreateResult), orderCreateSerializer catalog oid user p = .ok res →
        res.order.total_price = (res.order.items.map OrderItem.subtotal).sum) ∧
    (∀ (catalog : List Product) (db : Db) (r : GuestRequest) (o : Order),
       (guestCheckout catalog db r).order = some o →
        o.total_price = (o.items.map OrderItem.subtotal).sum) ∧
    (∀ o : Order, (Order.calculate_total o).total_price =
       ((Order.calculate_total o).items.map OrderItem.subtotal).sum) ∧
    (orderCreateSerializer sampleCatalog 1 sampleUser samplePayload).toOption.map
      (fun res => res.order.total_price) = some 2500 := by
  refine ⟨?_, ?_, ?_, ?_⟩
  · intro catalog oid user p res h
    exact (serializer_ok_spec h).2.2.2.1
  · intro catalog db r o ho
    by_cases h201 : (guestCheckout catalog db r).statusCode = 201
    · obtain ⟨o', e0, e1, e2, ho', hev, hprops, _, _, _, htot, _⟩ := guest_201_events h201
      rw [ho'] at ho
      simp only [Option.some.injEq] at ho
      subst ho
      exact htot
    · rw [(guest_fail_spec h201).2.2.1] at ho
      exact absurd ho (by simp)
  · intro o
    exact calculate_total_sum o
  · decide

/-- C1 witness: the scenario order evaluates to a 2500-cent total equal to the
sum of its subtotals. -/
theorem C1_witness :
    ∃ res, orderCreateSerializer sampleCatalog 1 sampleUser samplePayload = Except.ok res ∧
      res.order.total_price = (res.order.items.map OrderItem.subtotal).sum := by
  have hok : isOkE (orderCreateSerializer sampleCatalog 1 sampleUser samplePayload) = true := by
    decide
  cases hres : orderCreateSerializer sampleCatalog 1 sampleUser samplePayload with
  | error e =>
      rw [hres] at hok
      exact absurd hok (by simp [isOkE])
  | ok res =>
      exact ⟨res, rfl,
        C1_total_is_sum_of_subtotals.1 sampleCatalog 1 sampleUser samplePayload res hres⟩

/-- C2: a draft order is visible only to its owner (list and retrieve), a save
of a draft publishes nothing, every event a guest checkout publishes is
already in `'pending'` and classified `'created'`, and a rejected (incomplete)
guest submission publishes nothing and creates no order. -/
theorem C2_guest_draft_invisible_and_silent :
    (∀ (viewer : UserRec) (orders : List Order) (o : Order),
       o ∈ visibleOrders viewer orders → o.status = "draft" → o.userId = viewer.id) ∧
    (∀ (viewer : UserRec) (orders : List Order) (oid : Nat) (o : Order),
       retrieveOrder viewer orders oid = .ok o → o.status = "draft" → o.userId = viewer.id) ∧
    (∀ (created : Bool) (o : Order), o.status = "draft" →
       orderNotification created o = []) ∧
    (∀ (catalog : List Product) (db : Db) (r : GuestRequest) (e : NotificationEvent),
       e ∈ (guestCheckout catalog db r).events → e.status = "pending" ∧ e.action = "created") ∧
    (∀ (catalog : List Product) (db : Db) (r : GuestRequest),
       (guestCheckout catalog db r).statusCode ≠ 201 →
         (guestCheckout catalog db r).events = [] ∧ (guestCheckout catalog db r).order = none) := by
  refine ⟨visibleOrders_draft_owner, ?_, ?_, ?_, ?_⟩
  · intro viewer orders oid o hret hdraft
    unfold retrieveOrder at hret
    split at hret
    · exact absurd hret (by simp)
    · next o' hfind =>
        split at hret
        · exact absurd hret (by simp)
        · simp only [Except.ok.injEq] at hret
          subst hret
          exact visibleOrders_draft_owner viewer orders o'
            (List.mem_of_find?_eq_some hfind) hdraft
  · intro created o hdraft
    exact orderNotification_draft created o hdraft
  · intro catalog db r e he
    by_cases h201 : (guestCheckout catalog db r).statusCode = 201
    · obtain ⟨o, e0, e1, e2, ho, hev, hprops, _⟩ := guest_201_events h201
      rw [hev] at he
      have hp := hprops e he
      exact ⟨hp.2.1, hp.1⟩
    · rw [(guest_fail_spec h201).1] at he
      exact absurd he (by simp)
  · intro catalog db r h
    exact ⟨(guest_fail_spec h).1, (guest_fail_spec h).2.2.1⟩

/-- C2 witness: a concrete draft order triggers no notification and is
listed only for its owner. -/
theorem C2_witness :
    orderNotification true draftOrder = [] ∧ draftOrder.userId = sampleUser.id := by
  exact ⟨C2_guest_draft_invisible_and_silent.2.2.1 true draftOrder (by decide),
    C2_guest_draft_invisible_and_silent.1 sampleUser [draftOrder] draftOrder
      (by decide) (by decide)⟩

/-- A lookup miss in the role-filtered queryset makes the PATCH endpoint
answer 404 before any permission check runs. -/
theorem endpoint_miss_patch {actor : UserRec} {orders : List Order} {oid : Nat}
    {payload : List (String × String)}
    (h : (visibleOrders actor orders).find? (fun o => o.id == oid) = none) :
    orderPartialUpdateEndpoint actor orders oid payload = .error 404 := by
  unfold orderPartialUpdateEndpoint
  rw [h]

/-- A lookup miss in the role-filtered queryset makes the cancel endpoint
answer 404 before any permission check runs. -/
theorem endpoint_miss_cancel {actor : UserRec} {orders : List Order} {oid : Nat}
    (h : (visibleOrders actor orders).find? (fun o => o.id == oid) = none) :
    orderCancelEndpoint actor orders oid = .error 404 := by
  unfold orderCancelEndpoint
  rw [h]

/-- A non-staff viewer who owns none of the stored orders has an empty
queryset. -/
theorem nonstaff_visible_empty {actor : UserRec} {orders : List Order}
    (hns : ¬ actor.is_staff) (hall : ∀ o ∈ orders, o.userId ≠ actor.id) :
    visibleOrders actor orders = [] := by
  unfold visibleOrders
  rw [if_neg hns]
  exact List.filter_eq_nil_iff.mpr (fun o ho hq => hall o ho (eq_of_beq hq))

/-- C3 counterexample: the owner of a `'pending'` order PATCHing
`status='pending'` through the endpoint is rejected with 403 (the claim lists
`pending→pending` as permitted), and the owner cancelling their own
`'completed'` order receives 400 — a validation error, not the authorization
error the claim requires for every other attempt. -/
theorem C3_counterexample :
    orderPartialUpdateEndpoint sampleUser [ownPendingOrder] 11 [("status", "pending")] =
      .error 403 ∧
    orderCancelEndpoint sampleUser [ownCompletedOrder] 12 = .error 400 := by
  constructor
  · decide
  · decide

/-- C3 amended: a non-staff actor can effect exactly their own order's
`draft→pending` via PATCH and their own `pending/confirmed→cancelled` via
cancel.  A PATCH or cancel aimed at an order outside the actor's role-filtered
queryset — for a non-staff actor, any order that is not their own — is
answered 404 by `get_object` (the endpoints' internal ownership 403 checks are
unreachable for non-staff); a PATCH on an own order that is not
`draft→pending` is a 403 authorization error; a cancel of an own order not in
`pending`/`confirmed` is a 400 validation error; no rejected attempt saves
anything. -/
theorem C3_amended_selfservice_transitions :
    (∀ (actor : UserRec) (orders : List Order) (oid : Nat)
       (payload : List (String × String)),
       (visibleOrders actor orders).find? (fun o => o.id == oid) = none →
       orderPartialUpdateEndpoint actor orders oid payload = .error 404) ∧
    (∀ (actor : UserRec) (orders : List Order) (oid : Nat),
       (visibleOrders actor orders).find? (fun o => o.id == oid) = none →
       orderCancelEndpoint actor orders oid = .error 404) ∧
    (∀ (actor : UserRec) (orders : List Order) (oid : Nat)
       (payload : List (String × String)),
       ¬ actor.is_staff → (∀ o ∈ orders, o.userId ≠ actor.id) →
       orderPartialUpdateEndpoint actor orders oid payload = .error 404 ∧
       orderCancelEndpoint actor orders oid = .error 404) ∧
    (∀ (actor : UserRec) (orders : List Order) (oid : Nat)
       (payload : List (String × String)),
       ¬ actor.is_staff →
       ((∃ res, orderPartialUpdateEndpoint actor orders oid payload = .ok res) ↔
         (∃ o, (visibleOrders actor orders).find? (fun o2 => o2.id == oid) = some o ∧
           o.userId = actor.id ∧ o.status = "draft" ∧
           lookupPayload payload "status" = some "pending"))) ∧
    (∀ (actor : UserRec) (orders : List Order) (oid : Nat)
       (payload : List (String × String)) (res : Order × List NotificationEvent),
       ¬ actor.is_staff →
       orderPartialUpdateEndpoint actor orders oid payload = .ok res →
       res.1.status = "pending") ∧
    (∀ (actor : UserRec) (orders : List Order) (oid : Nat)
       (payload : List (String × String)) (c : Nat),
       ¬ actor.is_staff →
       orderPartialUpdateEndpoint actor orders oid payload = .error c →
       c = 403 ∨ c = 404) ∧
    (∀ (actor : UserRec) (orders : List Order) (oid : Nat) (o : Order),
       (visibleOrders actor orders).find? (fun o2 => o2.id == oid) = some o →
       o.userId = actor.id → o.status ≠ "pending" → o.status ≠ "confirmed" →
       orderCancelEndpoint actor orders oid = .error 400) ∧
    (∀ (actor : UserRec) (orders : List Order) (oid : Nat) (o : Order),
       (visibleOrders actor orders).find? (fun o2 => o2.id == oid) = some o →
       o.userId = actor.id → (o.status = "pending" ∨ o.status = "confirmed") →
       orderCancelEndpoint actor orders oid =
         .ok ({ o with status := "cancelled" },
              orderNotification false { o with status := "cancelled" })) := by
  refine ⟨?_, ?_, ?_, ?_, ?_, ?_, ?_, ?_⟩
  · intro actor orders oid payload h
    exact endpoint_miss_patch h
  · intro actor orders oid h
    exact endpoint_miss_cancel h
  · intro actor orders oid payload hns hall
    have hnone : (visibleOrders actor orders).find? (fun o => o.id == oid) = none := by
      rw [nonstaff_visible_empty hns hall]
      rfl
    exact ⟨endpoint_miss_patch hnone, endpoint_miss_cancel hnone⟩
  · intro actor orders oid payload hns
    constructor
    · rintro ⟨res, hres⟩
      unfold orderPartialUpdateEndpoint at hres
      cases hfind : (visibleOrders actor orders).find? (fun o => o.id == oid) with
      | none =>
          rw [hfind] at hres
          exact absurd hres (by simp)
      | some o =>
          rw [hfind] at hres
          dsimp only at hres
          rcases patch_nonstaff_cases actor o payload hns with herr | ⟨h1, h2, h3, -⟩
          · rw [herr] at hres
            exact absurd hres (by simp)
          · exact ⟨o, rfl, h1, h2, h3⟩
    · rintro ⟨o, hfind, h1, h2, h3⟩
      refine ⟨({ o with status := "pending" },
               orderNotification false { o with status := "pending" }), ?_⟩
      unfold orderPartialUpdateEndpoint
      rw [hfind]
      dsimp only
      exact patch_confirm_ok actor o payload h1 h2 h3
  · intro actor orders oid payload res hns hres
    unfold orderPartialUpdateEndpoint at hres
    cases hfind : (visibleOrders actor orders).find? (fun o => o.id == oid) with
    | none =>
        rw [hfind] at hres
        exact absurd hres (by simp)
    | some o =>
        rw [hfind] at hres
        dsimp only at hres
        rcases patch_nonstaff_cases actor o payload hns with herr | ⟨h1, h2, h3, hok⟩
        · rw [herr] at hres
          exact absurd hres (by simp)
        · rw [hok] at hres
          simp only [Except.ok.injEq] at hres
          rw [← hres]
  · intro actor orders oid payload c hns herr
    unfold orderPartialUpdateEndpoint at herr
    cases hfind : (visibleOrders actor orders).find? (fun o => o.id == oid) with
    | none =>
        rw [hfind] at herr
        dsimp only at herr
        simp only [Except.error.injEq] at herr
        exact .inr herr.symm
    | some o =>
        rw [hfind] at herr
        dsimp only at herr
        rcases patch_nonstaff_cases actor o payload hns with h403 | ⟨-, -, -, hok⟩
        · rw [h403] at herr
          simp only [Except.error.injEq] at herr
          exact .inl herr.symm
        · rw [hok] at herr
          exact absurd herr (by simp)
  · intro actor orders oid o hfind h1 hp hc
    unfold orderCancelEndpoint
    rw [hfind]
    dsimp only
    rcases cancel_cases actor o with ⟨hne, -⟩ | ⟨-, -, -, heq⟩ | ⟨-, hor, -⟩
    · exact absurd h1 hne
    · exact heq
    · exact absurd hor (by rintro (h | h) <;> [exact hp h; exact hc h])
  · intro actor orders oid o hfind h1 hor
    unfold orderCancelEndpoint
    rw [hfind]
    dsimp only
    rcases cancel_cases actor o with ⟨hne, -⟩ | ⟨-, hp, hc, -⟩ | ⟨-, -, heq⟩
    · exact absurd h1 hne
    · exact absurd hor (by rintro (h | h) <;> [exact hp h; exact hc h])
    · exact heq

/-- C3 witness: through the real endpoints, the owner confirms their own draft
order and cancels their own pending order. -/
theorem C3_witness :
    (∃ res, orderPartialUpdateEndpoint sampleUser [draftOrder] 13 [("status", "pending")] =
      .ok res) ∧
    orderCancelEndpoint sampleUser [ownPendingOrder] 11 =
      .ok ({ ownPendingOrder with status := "cancelled" },
           orderNotification false { ownPendingOrder with status := "cancelled" }) := by
  constructor
  · exact (C3_amended_selfservice_transitions.2.2.2.1 sampleUser [draftOrder] 13
      [("status", "pending")] (by decide)).mpr
      ⟨draftOrder, by decide, by decide, by decide, by decide⟩
  · exact C3_amended_selfservice_transitions.2.2.2.2.2.2.2 sampleUser [ownPendingOrder] 11
      ownPendingOrder (by decide) (by decide) (.inl (by decide))

/-- C4: a non-created save of an order whose resulting status is `'pending'`
publishes exactly one event with action `'created'` (not `'updated'`),
delivered to the staff channel and to `orders_user_<owner id>`. -/
theorem C4_confirmation_classified_created :
    ∀ o : Order, o.status ≠ "draft" → o.status = "pending" →
      orderNotification false o = [mkEvent "created" o] ∧
      (mkEvent "created" o).action = "created" ∧
      (mkEvent "created" o).action ≠ "updated" ∧
      (mkEvent "created" o).channels =
        ["orders_staff", "orders_user_" ++ toString o.userId] := by
  intro o hd hp
  exact ⟨orderNotification_confirm o hp, rfl,
    fun h => absurd (show "created" = "updated" from h) (by decide), rfl⟩

/-- C4 witness: the concrete pending order's confirmation save is published as
`'created'` on both channels. -/
theorem C4_witness :
    orderNotification false ownPendingOrder = [mkEvent "created" ownPendingOrder] ∧
    (mkEvent "created" ownPendingOrder).action = "created" ∧
    (mkEvent "created" ownPendingOrder).action ≠ "updated" ∧
    (mkEvent "created" ownPendingOrder).channels = ["orders_staff", "orders_user_7"] := by
  exact C4_confirmation_classified_created ownPendingOrder (by decide) (by decide)

/-- C6 counterexample: a guest-checkout request whose email is bound to the
non-guest `clientAccount` but whose guest name is blank is answered 400, not
the 409 conflict the claim promises for every such request. -/
theorem C6_counterexample :
    (guestCheckout sampleCatalog dbWithClient blankNameReq).statusCode = 400 ∧
    (guestCheckout sampleCatalog dbWithClient blankNameReq).statusCode ≠ 409 ∧
    dbWithClient.users.find?
      (fun x => x.email == (pyStrip blankNameReq.guest_email)) = some clientAccount ∧
    clientAccount.role ≠ "guest" ∧
    (guestCheckout sampleCatalog dbWithClient blankNameReq).order = none := by
  refine ⟨?_, ?_, ?_, ?_, ?_⟩ <;> decide

/-- C6 amended: a guest-checkout request that passes the presence check of
name, email and phone and whose email is bound to a non-guest account is
always answered 409 with the database untouched and no order created; a
request failing the presence check is answered 400, likewise without side
effects. -/
theorem C6_amended_conflict_for_nonguest_email :
    (∀ (catalog : List Product) (db : Db) (r : GuestRequest) (u : UserRec),
       (pyStrip r.guest_name) ≠ "" → (pyStrip r.guest_email) ≠ "" → (pyStrip r.guest_phone) ≠ "" →
       db.users.find? (fun x => x.email == (pyStrip r.guest_email)) = some u →
       u.role ≠ "guest" →
       guestCheckout catalog db r =
         { statusCode := 409, order := none, guestUserId := none, db := db,
           events := [], orderSaves := 0 }) ∧
    (∀ (catalog : List Product) (db : Db) (r : GuestRequest),
       ((pyStrip r.guest_name) = "" ∨ (pyStrip r.guest_email) = "" ∨ (pyStrip r.guest_phone) = "") →
       guestCheckout catalog db r =
         { statusCode := 400, order := none, guestUserId := none, db := db,
           events := [], orderSaves := 0 }) := by
  constructor
  · intro catalog db r u hn he hp hfind hrole
    unfold guestCheckout
    rw [if_neg (fun hor => hor.elim hn (fun hor2 => hor2.elim he hp))]
    rw [hfind]
    dsimp only
    rw [if_pos hrole]
  · intro catalog db r hor
    unfold guestCheckout
    rw [if_pos hor]

/-- C6 witness: a well-formed guest checkout against the bound non-guest email
is answered 409 and leaves the store unchanged. -/
theorem C6_witness :
    guestCheckout sampleCatalog dbWithClient { sampleGuestReq with guest_email := "bob@x.com" } =
      { statusCode := 409, order := none, guestUserId := none, db := dbWithClient,
        events := [], orderSaves := 0 } := by
  exact C6_amended_conflict_for_nonguest_email.1 sampleCatalog dbWithClient
    { sampleGuestReq with guest_email := "bob@x.com" } clientAccount
    (by decide) (by decide) (by decide) (by decide) (by decide)

/-- C7 counterexample: a staff PATCH persists the status `"archived"`, a value
outside the claimed five-value enumeration; moreover `'draft'` is not even
among the model's declared `STATUS_CHOICES`. -/
theorem C7_counterexample :
    (orderPartialUpdate staffUser ownPendingOrder [("status", "archived")]).toOption.map
      (fun res => res.1.status) = some "archived" ∧
    ¬ ("archived" ∈ ["draft", "pending", "confirmed", "completed", "cancelled"]) ∧
    ¬ ("draft" ∈ STATUS_CHOICES) := by
  refine ⟨?_, ?_, ?_⟩ <;> decide

/-- C7 amended: the statuses the system itself assigns (creation default,
guest confirmation, owner confirmation, cancellation) all lie in the model's
four-value `STATUS_CHOICES`, but the enumeration is not enforced on save: a
staff status update persists any string found in the payload. -/
theorem C7_amended_enumeration_unenforced :
    (∀ (catalog : List Product) (oid : Nat) (user : UserRec) (p : OrderPayload)
       (res : CreateResult), orderCreateSerializer catalog oid user p = .ok res →
        res.order.status ∈ STATUS_CHOICES) ∧
    (∀ (catalog : List Product) (db : Db) (r : GuestRequest) (o : Order),
       (guestCheckout catalog db r).order = some o → o.status ∈ STATUS_CHOICES) ∧
    (∀ (actor : UserRec) (o : Order) (res : Order × List NotificationEvent),
       orderCancel actor o = .ok res → res.1.status ∈ STATUS_CHOICES) ∧
    (∀ (actor : UserRec) (o : Order) (payload : List (String × String))
       (res : Order × List NotificationEvent), ¬ actor.is_staff →
       orderPartialUpdate actor o payload = .ok res → res.1.status ∈ STATUS_CHOICES) ∧
    (∀ (actor : UserRec) (o : Order) (payload : List (String × String)) (s : String),
       actor.is_staff → lookupPayload payload "status" = some s →
       orderPartialUpdate actor o payload =
         .ok ({ o with status := s }, orderNotification false { o with status := s })) := by
  refine ⟨?_, ?_, ?_, ?_, patch_staff_ok⟩
  · intro catalog oid user p res h
    rw [(serializer_ok_spec h).1]
    decide
  · intro catalog db r o ho
    by_cases h201 : (guestCheckout catalog db r).statusCode = 201
    · obtain ⟨o', e0, e1, e2, ho', hev, hprops, _, _, _, _, hst⟩ := guest_201_events h201
      rw [ho'] at ho
      simp only [Option.some.injEq] at ho
      subst ho
      rw [hst]
      decide
    · rw [(guest_fail_spec h201).2.2.1] at ho
      exact absurd ho (by simp)
  · intro actor o res h
    rcases cancel_cases actor o with ⟨-, heq⟩ | ⟨-, -, -, heq⟩ | ⟨-, -, heq⟩
    · rw [heq] at h
      exact absurd h (by simp)
    · rw [heq] at h
      exact absurd h (by simp)
    · rw [heq] at h
      simp only [Except.ok.injEq] at h
      rw [← h]
      exact (by decide : ("cancelled" : String) ∈ STATUS_CHOICES)
  · intro actor o payload res hns h
    rcases patch_nonstaff_cases actor o payload hns with herr | ⟨-, -, -, hok⟩
    · rw [herr] at h
      exact absurd h (by simp)
    · rw [hok] at h
      simp only [Except.ok.injEq] at h
      rw [← h]
      exact (by decide : ("pending" : String) ∈ STATUS_CHOICES)

/-- C7 witness: a staff PATCH with a payload status is persisted verbatim. -/
theorem C7_witness :
    orderPartialUpdate staffUser ownPendingOrder [("status", "completed")] =
      .ok ({ ownPendingOrder with status := "completed" },
           orderNotification false { ownPendingOrder with status := "completed" }) := by
  exact C7_amended_enumeration_unenforced.2.2.2.2 staffUser ownPendingOrder
    [("status", "completed")] "completed" (by decide) (by decide)

/-- C8: every save of an order item recomputes `subtotal` as
`quantity * unit_price` from the current fields, and every item stored by
order creation satisfies the invariant. -/
theorem C8_subtotal_invariant :
    (∀ it : OrderItem,
       (OrderItem.save it).subtotal =
         (OrderItem.save it).quantity * (OrderItem.save it).unit_price ∧
       (OrderItem.save it).quantity = it.quantity ∧
       (OrderItem.save it).unit_price = it.unit_price) ∧
    (∀ (catalog : List Product) (oid : Nat) (user : UserRec) (p : OrderPayload)
       (res : CreateResult), orderCreateSerializer catalog oid user p = .ok res →
        ∀ it ∈ res.order.items, it.subtotal = it.quantity * it.unit_price) := by
  constructor
  · intro it
    exact ⟨rfl, rfl, rfl⟩
  · intro catalog oid user p res h it hit
    obtain ⟨its, hb, hres⟩ := serializer_items h
    rw [hres] at hit
    exact buildItems_subtotal catalog p.items its hb it hit

/-- C8 witness: the invariant evaluated on the scenario order's items. -/
theorem C8_witness :
    ∃ res, orderCreateSerializer sampleCatalog 1 sampleUser samplePayload = Except.ok res ∧
      ∀ it ∈ res.order.items, it.subtotal = it.quantity * it.unit_price := by
  have hok : isOkE (orderCreateSerializer sampleCatalog 1 sampleUser samplePayload) = true := by
    decide
  cases hres : orderCreateSerializer sampleCatalog 1 sampleUser samplePayload with
  | error e =>
      rw [hres] at hok
      exact absurd hok (by simp [isOkE])
  | ok res =>
      exact ⟨res, rfl,
        C8_subtotal_invariant.2 sampleCatalog 1 sampleUser samplePayload res hres⟩

/-- C9: a successful PATCH status update modifies only the status field: id,
owner, total, delivery fields, phone, notes and items are untouched, whatever
other keys the payload contains. -/
theorem C9_patch_touches_only_status :
    ∀ (actor : UserRec) (o : Order) (payload : List (String × String))
      (o2 : Order) (evs : List NotificationEvent),
      orderPartialUpdate actor o payload = .ok (o2, evs) →
      o2.id = o.id ∧ o2.userId = o.userId ∧ o2.total_price = o.total_price ∧
      o2.delivery_street = o.delivery_street ∧
      o2.delivery_house_number = o.delivery_house_number ∧
      o2.delivery_location = o.delivery_location ∧
      o2.phone = o.phone ∧ o2.notes = o.notes ∧ o2.items = o.items := by
  intro actor o payload o2 evs h
  exact patch_frame h

/-- C9 witness: a staff PATCH whose payload carries an extra `phone` key still
changes nothing except the status. -/
theorem C9_witness :
    ∃ (o2 : Order) (evs : List NotificationEvent),
      orderPartialUpdate staffUser ownPendingOrder
        [("status", "confirmed"), ("phone", "000")] = .ok (o2, evs) ∧
      o2.phone = ownPendingOrder.phone ∧ o2.total_price = ownPendingOrder.total_price ∧
      o2.notes = ownPendingOrder.notes := by
  have hok : isOkE (orderPartialUpdate staffUser ownPendingOrder
      [("status", "confirmed"), ("phone", "000")]) = true := by decide
  cases hres : orderPartialUpdate staffUser ownPendingOrder
      [("status", "confirmed"), ("phone", "000")] with
  | error e =>
      rw [hres] at hok
      exact absurd hok (by simp [isOkE])
  | ok res =>
      obtain ⟨o2, evs⟩ := res
      have hfr := C9_patch_touches_only_status staffUser ownPendingOrder
        [("status", "confirmed"), ("phone", "000")] o2 evs hres
      exact ⟨o2, evs, rfl, hfr.2.2.2.2.2.2.1, hfr.2.2.1, hfr.2.2.2.2.2.2.2.1⟩

/-- C10: every successful creation saves the order row more than once and thus
publishes at least two `'created'` events, each to both channels; the first
event is emitted before any line item exists, carrying total `"0.00"` and item
count 0. -/
theorem C10_creation_publishes_twice :
    (∀ (catalog : List Product) (oid : Nat) (user : UserRec) (p : OrderPayload)
       (res : CreateResult), orderCreateSerializer catalog oid user p = .ok res →
        res.orderSaves = 2 ∧ 2 ≤ res.events.length ∧
        (∀ e ∈ res.events, e.action = "created" ∧
          e.channels = ["orders_staff", "orders_user_" ++ toString res.order.userId]) ∧
        ∃ e0, res.events.head? = some e0 ∧ e0.total_price = "0.00" ∧ e0.items_count = 0) ∧
    (∀ (catalog : List Product) (db : Db) (r : GuestRequest),
       (guestCheckout catalog db r).statusCode = 201 →
        (guestCheckout catalog db r).orderSaves = 3 ∧
        2 ≤ (guestCheckout catalog db r).events.length ∧
        (∀ e ∈ (guestCheckout catalog db r).events, e.action = "created") ∧
        (∀ o, (guestCheckout catalog db r).order = some o →
          ∀ e ∈ (guestCheckout catalog db r).events,
            e.channels = ["orders_staff", "orders_user_" ++ toString o.userId]) ∧
        ∃ e0, (guestCheckout catalog db r).events.head? = some e0 ∧
          e0.total_price = "0.00" ∧ e0.items_count = 0) := by
  constructor
  · intro catalog oid user p res h
    obtain ⟨hst, hid, huid, htot, hsaves, e0, e1, hev, ha0, ha1, hs0, hs1, htp0, hic0,
      hch0, hch1⟩ := serializer_ok_spec h
    refine ⟨hsaves, by rw [hev]; exact Nat.le.refl, ?_, e0, by rw [hev]; rfl, htp0, hic0⟩
    intro e he
    rw [hev] at he
    rcases List.mem_cons.mp he with h0 | he
    · subst h0
      exact ⟨ha0, by rw [hch0, huid]⟩
    · rcases List.mem_cons.mp he with h1 | he
      · subst h1
        exact ⟨ha1, by rw [hch1, huid]⟩
      · exact absurd he (by simp)
  · intro catalog db r h
    obtain ⟨o, e0, e1, e2, ho, hev, hprops, htp0, hic0, hsaves, _⟩ := guest_201_events h
    refine ⟨hsaves, by rw [hev]; exact Nat.le_succ 2, ?_, ?_, e0, by rw [hev]; rfl, htp0, hic0⟩
    · intro e he
      rw [hev] at he
      exact (hprops e he).1
    · intro o' ho' e he
      rw [ho] at ho'
      simp only [Option.some.injEq] at ho'
      subst ho'
      rw [hev] at he
      exact (hprops e he).2.2

/-- C10 witness: the scenario creation performs two saves and publishes the
two `'created'` events, the first with total `"0.00"` and no items. -/
theorem C10_witness :
    ∃ res, orderCreateSerializer sampleCatalog 1 sampleUser samplePayload = Except.ok res ∧
      res.orderSaves = 2 ∧ 2 ≤ res.events.length ∧
      ∃ e0, res.events.head? = some e0 ∧ e0.total_price = "0.00" ∧ e0.items_count = 0 := by
  have hok : isOkE (orderCreateSerializer sampleCatalog 1 sampleUser samplePayload) = true := by
    decide
  cases hres : orderCreateSerializer sampleCatalog 1 sampleUser samplePayload with
  | error e =>
      rw [hres] at hok
      exact absurd hok (by simp [isOkE])
  | ok res =>
      have hc := C10_creation_publishes_twice.1 sampleCatalog 1 sampleUser samplePayload res hres
      exact ⟨res, rfl, hc.1, hc.2.1, hc.2.2.2⟩

/-! ## Lemmas for identity resolution (claim C5) -/

theorem find?_append_none {α : Type} (p : α → Bool) {l1 : List α} (l2 : List α)
    (h : l1.find? p = none) : (l1 ++ l2).find? p = l2.find? p := by
  induction l1 with
  | nil => rfl
  | cons x xs ih =>
      cases hx : p x with
      | true =>
          rw [List.find?_cons_of_pos xs hx] at h
          exact absurd h (by simp)
      | false =>
          rw [List.find?_cons_of_neg xs (by simp [hx])] at h
          rw [List.cons_append, List.find?_cons_of_neg (xs ++ l2) (by simp [hx])]
          exact ih h

/-- Replacing the row found by email (same id, same email) leaves the lookup
finding the replacement. -/
theorem saveUser_find_email {l : List UserRec} {eu gu : UserRec} {e : String}
    (hfind : l.find? (fun u => u.email == e) = some eu)
    (hid : gu.id = eu.id) (hemail : gu.email = eu.email) :
    (l.map (fun x => if x.id == gu.id then gu else x)).find? (fun u => u.email == e) =
      some gu := by
  induction l with
  | nil => exact absurd hfind (by simp)
  | cons x xs ih =>
      cases hx : (x.email == e) with
      | true =>
          rw [List.find?_cons_of_pos xs hx] at hfind
          simp only [Option.some.injEq] at hfind
          subst hfind
          simp only [List.map_cons]
          have hxid : (x.id == gu.id) = true := by
            rw [hid]
            exact beq_self_eq_true x.id
          have hgue : (gu.email == e) = true := by
            rw [hemail]
            exact hx
          rw [if_pos hxid]
          simp only [List.find?_cons, hgue]
      | false =>
          rw [List.find?_cons_of_neg xs (by simp [hx])] at hfind
          simp only [List.map_cons]
          cases hxid : (x.id == gu.id) with
          | true =>
              have heu := List.find?_some hfind
              have hgue : (gu.email == e) = true := by
                rw [hemail]
                simpa using heu
              rw [if_pos rfl]
              simp only [List.find?_cons, hgue]
          | false =>
              rw [if_neg (by decide : ¬(false = true))]
              simp only [List.find?_cons, hx]
              exact ih hfind

/-- Saving a user whose id matches nobody in the list changes nothing. -/
theorem map_id_of_fresh {l : List UserRec} {gu : UserRec}
    (hfresh : ∀ u ∈ l, u.id ≠ gu.id) :
    l.map (fun x => if x.id == gu.id then gu else x) = l := by
  induction l with
  | nil => rfl
  | cons x xs ih =>
      simp only [List.map_cons]
      have hx : ¬((x.id == gu.id) = true) :=
        fun hh => hfresh x (List.mem_cons_self x xs) (eq_of_beq hh)
      rw [if_neg hx, ih (fun u hu => hfresh u (List.mem_cons_of_mem x hu))]

/-- Saving the freshly appended row rewrites only that row. -/
theorem saveUser_append_fresh {l : List UserRec} {u0 gu : UserRec}
    (hid : gu.id = u0.id) (hfresh : ∀ u ∈ l, u.id ≠ u0.id) :
    (l ++ [u0]).map (fun x => if x.id == gu.id then gu else x) = l ++ [gu] := by
  rw [List.map_append,
    map_id_of_fresh (fun u hu hh => hfresh u hu (by rw [hh, hid]))]
  simp only [List.map_cons, List.map_nil]
  rw [if_pos (by rw [hid]; exact beq_self_eq_true u0.id)]

/-- In a table with pairwise distinct primary keys, a key determines the
row. -/
theorem mem_id_unique {l : List UserRec} (hpair : l.Pairwise (fun a b => a.id ≠ b.id))
    {x y : UserRec} (hx : x ∈ l) (hy : y ∈ l) (hid : x.id = y.id) : x = y := by
  by_contra hne
  have hsymm : Symmetric (fun a b : UserRec => a.id ≠ b.id) := by
    intro a b hab h
    exact hab h.symm
  exact (List.Pairwise.forall hsymm hpair hx hy hne) hid

theorem emailCount_append (l : List UserRec) (u : UserRec) (e : String) :
    emailCount (l ++ [u]) e = emailCount l e + (if (u.email == e) = true then 1 else 0) := by
  unfold emailCount
  rw [List.countP_append]
  congr 1
  simp [List.countP_cons]

theorem countP_zero_of_any_false {α : Type} {l : List α} {p : α → Bool}
    (h : l.any p = false) : l.countP p = 0 := by
  rw [List.countP_eq_zero]
  intro a ha hpa
  have : l.any p = true := List.any_eq_true.mpr ⟨a, ha, hpa⟩
  rw [h] at this
  exact absurd this (by decide)

/-- Counting by email is unchanged when a map preserves every element's
email. -/
theorem emailCount_map_eq {f : UserRec → UserRec} {e : String} :
    ∀ l : List UserRec, (∀ x ∈ l, (f x).email = x.email) →
      emailCount (l.map f) e = emailCount l e := by
  intro l
  induction l with
  | nil => intro _; rfl
  | cons x xs ih =>
      intro hf
      simp only [List.map_cons, emailCount, List.countP_cons]
      have := ih (fun y hy => hf y (List.mem_cons_of_mem x hy))
      unfold emailCount at this
      rw [this, hf x (List.mem_cons_self x xs)]

/-- Forward evaluation of a successful `create_user`. -/
theorem create_user_eval (db : Db) (un em nm : String)
    (hne : em ≠ "")
    (hmail : db.users.any (fun u => u.email == normalize_email em) = false)
    (husern : db.users.any (fun u => u.username == un) = false) :
    create_user db un em nm = .ok
      ({ id := db.nextUserId, username := un, email := normalize_email em, name := nm,
         phone := "", role := "client", is_staff := false },
       { db with
         users := db.users ++
           [{ id := db.nextUserId, username := un, email := normalize_email em,
              name := nm, phone := "", role := "client", is_staff := false }],
         nextUserId := db.nextUserId + 1 }) := by
  unfold create_user
  rw [if_neg hne, if_neg (by simp [hmail]), if_neg (by simp [husern])]

/-- Inversion of a successful `create_user`: the created row, the new table,
and the uniqueness fact that made the insert succeed. -/
theorem create_user_inv {db : Db} {un em nm : String} {u0 : UserRec} {db1 : Db}
    (h : create_user db un em nm = .ok (u0, db1)) :
    u0 = { id := db.nextUserId, username := un, email := normalize_email em, name := nm,
           phone := "", role := "client", is_staff := false } ∧
    db1 = { db with users := db.users ++ [u0], nextUserId := db.nextUserId + 1 } ∧
    db.users.any (fun u => u.email == normalize_email em) = false := by
  unfold create_user at h
  split at h
  · exact absurd h (by simp)
  · split at h
    · exact absurd h (by simp)
    · next hany =>
        split at h
        · exact absurd h (by simp)
        · simp only [Except.ok.injEq, Prod.mk.injEq] at h
          obtain ⟨h1, h2⟩ := h
          refine ⟨h1.symm, ?_, ?_⟩
          · rw [← h2, h1]
          · cases hb : db.users.any (fun u => u.email == normalize_email em) with
            | true => exact absurd hb hany
            | false => rfl

/-- Evaluation of `guest_checkout` in the guest-reuse branch. -/
theorem guestCheckout_reuse (catalog : List Product) (db : Db) (r : GuestRequest)
    (eu : UserRec)
    (hpres : ¬((pyStrip r.guest_name) = "" ∨ (pyStrip r.guest_email) = "" ∨
      (pyStrip r.guest_phone) = ""))
    (hfind : db.users.find? (fun u => u.email == (pyStrip r.guest_email)) = some eu)
    (hrole : eu.role = "guest") :
    guestCheckout catalog db r =
      if eu.phone ≠ (pyStrip r.guest_phone) then
        guestFinishOrder catalog db (saveUser db { eu with phone := (pyStrip r.guest_phone) })
          { eu with phone := (pyStrip r.guest_phone) } (pyStrip r.guest_phone) r
      else guestFinishOrder catalog db db eu (pyStrip r.guest_phone) r := by
  unfold guestCheckout
  rw [if_neg hpres, hfind]
  dsimp only
  rw [if_neg (fun hh => hh hrole)]

/-- Evaluation of `guest_checkout` in the account-creation branch. -/
theorem guestCheckout_create (catalog : List Product) (db : Db) (r : GuestRequest)
    {u0 : UserRec} {db1 : Db}
    (hpres : ¬((pyStrip r.guest_name) = "" ∨ (pyStrip r.guest_email) = "" ∨
      (pyStrip r.guest_phone) = ""))
    (hfind : db.users.find? (fun u => u.email == (pyStrip r.guest_email)) = none)
    (hcr : create_user db (guestUsername (pyStrip r.guest_email) r.usernameToken)
      (pyStrip r.guest_email) (pyStrip r.guest_name) = .ok (u0, db1)) :
    guestCheckout catalog db r =
      guestFinishOrder catalog db
        (saveUser db1 { u0 with role := "guest", phone := (pyStrip r.guest_phone) })
        { u0 with role := "guest", phone := (pyStrip r.guest_phone) }
        (pyStrip r.guest_phone) r := by
  unfold guestCheckout
  rw [if_neg hpres, hfind]
  dsimp only
  rw [hcr]

/-- Evaluation of `guest_checkout` when the account insert fails. -/
theorem guestCheckout_create_error (catalog : List Product) (db : Db) (r : GuestRequest)
    {err : String}
    (hpres : ¬((pyStrip r.guest_name) = "" ∨ (pyStrip r.guest_email) = "" ∨
      (pyStrip r.guest_phone) = ""))
    (hfind : db.users.find? (fun u => u.email == (pyStrip r.guest_email)) = none)
    (hcr : create_user db (guestUsername (pyStrip r.guest_email) r.usernameToken)
      (pyStrip r.guest_email) (pyStrip r.guest_name) = .error err) :
    guestCheckout catalog db r =
      { statusCode := 500, order := none, guestUserId := none, db := db,
        events := [], orderSaves := 0 } := by
  unfold guestCheckout
  rw [if_neg hpres, hfind]
  dsimp only
  rw [hcr]

/-- The serializer-and-confirm tail succeeds as soon as the serializer does,
returning the resolved guest's id. -/
theorem finish_guestUserId_201 {catalog : List Product} {db0 dbW : Db} {gu : UserRec}
    {phone : String} {r : GuestRequest}
    (hok : ∃ res, orderCreateSerializer catalog dbW.nextOrderId gu
      (guestOrderPayload phone r) = .ok res) :
    (guestFinishOrder catalog db0 dbW gu phone r).statusCode = 201 ∧
    (guestFinishOrder catalog db0 dbW gu phone r).guestUserId = some gu.id := by
  obtain ⟨res, hser⟩ := hok
  unfold guestFinishOrder
  rw [hser]
  exact ⟨rfl, rfl⟩

/-- A repeat checkout that finds a guest account with the unchanged phone
succeeds and returns that account's id. -/
theorem second_call_reuse {catalog : List Product} {dbOut : Db} {r2 : GuestRequest}
    (gu : UserRec)
    (hpres2 : ¬((pyStrip r2.guest_name) = "" ∨ (pyStrip r2.guest_email) = "" ∨
      (pyStrip r2.guest_phone) = ""))
    (hfind2 : dbOut.users.find? (fun u => u.email == (pyStrip r2.guest_email)) = some gu)
    (hrole2 : gu.role = "guest")
    (hphone2 : gu.phone = (pyStrip r2.guest_phone))
    (hok : ∃ res, orderCreateSerializer catalog dbOut.nextOrderId gu
      (guestOrderPayload (pyStrip r2.guest_phone) r2) = .ok res) :
    (guestCheckout catalog dbOut r2).statusCode = 201 ∧
    (guestCheckout catalog dbOut r2).guestUserId = some gu.id := by
  have h := guestCheckout_reuse catalog dbOut r2 gu hpres2 hfind2 hrole2
  rw [if_neg (fun hh => hh hphone2)] at h
  rw [h]
  exact finish_guestUserId_201 hok

/-- C5 counterexample: two guest checkouts with the same email
`ann@EXAMPLE.com` (uppercase domain).  The first succeeds and stores the
account under the normalized `ann@example.com`; the second call's exact-match
lookup misses it, re-creation violates the email uniqueness constraint, and
the request errors instead of returning the same principal id. -/
theorem C5_counterexample :
    (guestCheckout sampleCatalog emptyDb mixedCaseReq).statusCode = 201 ∧
    (guestCheckout sampleCatalog emptyDb mixedCaseReq).guestUserId = some 1 ∧
    (guestCheckout sampleCatalog (guestCheckout sampleCatalog emptyDb mixedCaseReq).db
      mixedCaseReq2).statusCode = 500 ∧
    (guestCheckout sampleCatalog (guestCheckout sampleCatalog emptyDb mixedCaseReq).db
      mixedCaseReq2).guestUserId = none := by
  refine ⟨?_, ?_, ?_, ?_⟩ <;> decide

/-- C5 amended: for an email already in normalized form (lowercase domain, as
`create_user` stores it), resolving guest identity twice yields the same
principal id both times; and for every email, a guest checkout never takes a
store with at most one account per email to one with two — at most one
account per email ever exists. -/
theorem C5_amended_idempotent_identity :
    (∀ (catalog : List Product) (db : Db) (r : GuestRequest) (t2 : String),
       normalize_email (pyStrip r.guest_email) = pyStrip r.guest_email →
       (∀ u ∈ db.users, u.id < db.nextUserId) →
       (∀ u ∈ db.users, u.username ≠
         guestUsername (pyStrip r.guest_email) r.usernameToken) →
       (∀ u ∈ db.users, u.email = pyStrip r.guest_email → u.role = "guest") →
       (guestCheckout catalog db r).statusCode = 201 →
       (guestCheckout catalog (guestCheckout catalog db r).db
          { r with usernameToken := t2 }).statusCode = 201 ∧
       (guestCheckout catalog (guestCheckout catalog db r).db
          { r with usernameToken := t2 }).guestUserId =
         (guestCheckout catalog db r).guestUserId) ∧
    (∀ (catalog : List Product) (db : Db) (r : GuestRequest) (e : String),
       db.users.Pairwise (fun a b => a.id ≠ b.id) →
       (∀ u ∈ db.users, u.id < db.nextUserId) →
       emailCount db.users e ≤ 1 →
       emailCount (guestCheckout catalog db r).db.users e ≤ 1) := by
  constructor
  · intro catalog db r t2 hnorm hidlt hfresh hguest h201
    have hpres : ¬(pyStrip r.guest_name = "" ∨ pyStrip r.guest_email = "" ∨
        pyStrip r.guest_phone = "") := by
      intro hor
      have h400 : guestCheckout catalog db r =
          { statusCode := 400, order := none, guestUserId := none, db := db,
            events := [], orderSaves := 0 } := by
        unfold guestCheckout
        rw [if_pos hor]
      rw [h400] at h201
      dsimp only at h201
      exact absurd h201 (by decide)
    cases hfind : db.users.find? (fun u => u.email == pyStrip r.guest_email) with
    | some eu =>
        have hrole : eu.role = "guest" :=
          hguest eu (List.mem_of_find?_eq_some hfind)
            (by simpa using List.find?_some hfind)
        have hout1 := guestCheckout_reuse catalog db r eu hpres hfind hrole
        by_cases hph : eu.phone ≠ pyStrip r.guest_phone
        · rw [if_pos hph] at hout1
          rw [hout1] at h201 ⊢
          obtain ⟨res, hser, hfin⟩ := finish_201_spec h201
          rw [hfin]
          dsimp only
          have hfind2 : (saveUser db { eu with phone := pyStrip r.guest_phone }).users.find?
              (fun u => u.email == pyStrip r.guest_email) =
                some { eu with phone := pyStrip r.guest_phone } := by
            dsimp only [saveUser]
            exact saveUser_find_email hfind
              (show ({ eu with phone := pyStrip r.guest_phone } : UserRec).id = eu.id from rfl)
              (show ({ eu with phone := pyStrip r.guest_phone } : UserRec).email = eu.email
                from rfl)
          exact second_call_reuse { eu with phone := pyStrip r.guest_phone } hpres hfind2
            hrole rfl (serializer_ok_independent hser _ _)
        · rw [if_neg hph] at hout1
          rw [hout1] at h201 ⊢
          obtain ⟨res, hser, hfin⟩ := finish_201_spec h201
          rw [hfin]
          dsimp only
          exact second_call_reuse eu hpres hfind hrole (of_not_not hph)
            (serializer_ok_independent hser _ _)
    | none =>
        cases hcr : create_user db (guestUsername (pyStrip r.guest_email) r.usernameToken)
            (pyStrip r.guest_email) (pyStrip r.guest_name) with
        | error err =>
            rw [guestCheckout_create_error catalog db r hpres hfind hcr] at h201
            dsimp only at h201
            exact absurd h201 (by decide)
        | ok p =>
            obtain ⟨u0, db1⟩ := p
            obtain ⟨hu0, hdb1, -⟩ := create_user_inv hcr
            have hout1 := guestCheckout_create catalog db r hpres hfind hcr
            rw [hout1] at h201 ⊢
            obtain ⟨res, hser, hfin⟩ := finish_201_spec h201
            rw [hfin]
            dsimp only
            have hid0 : u0.id = db.nextUserId := by rw [hu0]
            have hemail0 : u0.email = normalize_email (pyStrip r.guest_email) := by rw [hu0]
            have husers : (saveUser db1
                { u0 with role := "guest", phone := pyStrip r.guest_phone }).users =
                db.users ++ [{ u0 with role := "guest", phone := pyStrip r.guest_phone }] := by
              rw [hdb1]
              dsimp only [saveUser]
              exact saveUser_append_fresh
                (show ({ u0 with role := "guest", phone := pyStrip r.guest_phone } : UserRec).id = u0.id from rfl)
                (fun u hu hh => Nat.lt_irrefl db.nextUserId
                  (by rw [hid0] at hh; exact hh ▸ hidlt u hu))
            have hgum : (({ u0 with role := "guest", phone := pyStrip r.guest_phone } : UserRec).email ==
                  pyStrip r.guest_email) = true := by
              show (u0.email == pyStrip r.guest_email) = true
              rw [hemail0, hnorm]
              exact beq_self_eq_true _
            have hfind2 : (saveUser db1
                { u0 with role := "guest", phone := pyStrip r.guest_phone }).users.find?
                  (fun u => u.email == pyStrip r.guest_email) =
                some { u0 with role := "guest", phone := pyStrip r.guest_phone } := by
              rw [husers, find?_append_none _ _ hfind]
              simp only [List.find?_cons, hgum]
            exact second_call_reuse { u0 with role := "guest", phone := pyStrip r.guest_phone }
              hpres hfind2 rfl rfl (serializer_ok_independent hser _ _)
  · intro catalog db r e hpair hidlt hcount
    by_cases hpresb : (pyStrip r.guest_name = "" ∨ pyStrip r.guest_email = "" ∨
        pyStrip r.guest_phone = "")
    · have h400 : guestCheckout catalog db r =
          { statusCode := 400, order := none, guestUserId := none, db := db,
            events := [], orderSaves := 0 } := by
        unfold guestCheckout
        rw [if_pos hpresb]
      rw [h400]
      exact hcount
    · cases hfind : db.users.find? (fun u => u.email == pyStrip r.guest_email) with
      | some eu =>
          by_cases hrole : eu.role ≠ "guest"
          · have h409 : guestCheckout catalog db r =
                { statusCode := 409, order := none, guestUserId := none, db := db,
                  events := [], orderSaves := 0 } := by
              unfold guestCheckout
              rw [if_neg hpresb, hfind]
              dsimp only
              rw [if_pos hrole]
            rw [h409]
            exact hcount
          · have hout := guestCheckout_reuse catalog db r eu hpresb hfind (of_not_not hrole)
            by_cases hph : eu.phone ≠ pyStrip r.guest_phone
            · rw [if_pos hph] at hout
              rw [hout]
              by_cases h201 : (guestFinishOrder catalog db
                  (saveUser db { eu with phone := pyStrip r.guest_phone })
                  { eu with phone := pyStrip r.guest_phone }
                  (pyStrip r.guest_phone) r).statusCode = 201
              · obtain ⟨res, hser, hfin⟩ := finish_201_spec h201
                rw [hfin]
                dsimp only [saveUser]
                rw [emailCount_map_eq db.users ?hemails]
                case hemails =>
                  intro x hx
                  cases hxid : (x.id == ({ eu with phone := pyStrip r.guest_phone } : UserRec).id) with
                  | true =>
                      have hxeq : x = eu := mem_id_unique hpair hx
                        (List.mem_of_find?_eq_some hfind) (eq_of_beq hxid)
                      rw [if_pos rfl]
                      rw [hxeq]
                  | false =>
                      rw [if_neg (by decide : ¬(false = true))]
                exact hcount
              · rw [finish_fail_spec h201]
                exact hcount
            · rw [if_neg hph] at hout
              rw [hout]
              by_cases h201 : (guestFinishOrder catalog db db eu
                  (pyStrip r.guest_phone) r).statusCode = 201
              · obtain ⟨res, hser, hfin⟩ := finish_201_spec h201
                rw [hfin]
                exact hcount
              · rw [finish_fail_spec h201]
                exact hcount
      | none =>
          cases hcr : create_user db (guestUsername (pyStrip r.guest_email) r.usernameToken)
              (pyStrip r.guest_email) (pyStrip r.guest_name) with
          | error err =>
              rw [guestCheckout_create_error catalog db r hpresb hfind hcr]
              exact hcount
          | ok p =>
              obtain ⟨u0, db1⟩ := p
              obtain ⟨hu0, hdb1, hanymail⟩ := create_user_inv hcr
              have hid0 : u0.id = db.nextUserId := by rw [hu0]
              have hout := guestCheckout_create catalog db r hpresb hfind hcr
              rw [hout]
              by_cases h201 : (guestFinishOrder catalog db
                  (saveUser db1 { u0 with role := "guest", phone := pyStrip r.guest_phone })
                  { u0 with role := "guest", phone := pyStrip r.guest_phone }
                  (pyStrip r.guest_phone) r).statusCode = 201
              · obtain ⟨res, hser, hfin⟩ := finish_201_spec h201
                rw [hfin]
                dsimp only [saveUser]
                have husers : db1.users.map
                    (fun x => if x.id ==
                      ({ u0 with role := "guest", phone := pyStrip r.guest_phone } : UserRec).id
                      then { u0 with role := "guest", phone := pyStrip r.guest_phone } else x) =
                    db.users ++ [{ u0 with role := "guest", phone := pyStrip r.guest_phone }] := by
                  rw [hdb1]
                  exact saveUser_append_fresh
                    (show ({ u0 with role := "guest", phone := pyStrip r.guest_phone } : UserRec).id = u0.id from rfl)
                    (fun u hu hh => Nat.lt_irrefl db.nextUserId
                      (by rw [hid0] at hh; exact hh ▸ hidlt u hu))
                rw [husers, emailCount_append]
                cases hgu : (({ u0 with role := "guest", phone := pyStrip r.guest_phone } : UserRec).email == e) with
                | false =>
                    rw [if_neg (by decide : ¬(false = true))]
                    exact hcount
                | true =>
                    rw [if_pos rfl]
                    have hee : e = normalize_email (pyStrip r.guest_email) := by
                      have := eq_of_beq hgu
                      rw [← this, hu0]
                    have hzero : emailCount db.users e = 0 := by
                      rw [hee]
                      exact countP_zero_of_any_false hanymail
                    rw [hzero]
              · rw [finish_fail_spec h201]
                exact hcount

/-- C5 witness: two checkouts with the already-normalized email
`ann@example.com` against an empty store both succeed and return the same
principal id. -/
theorem C5_witness :
    (guestCheckout sampleCatalog (guestCheckout sampleCatalog emptyDb sampleGuestReq).db
      sampleGuestReq2).statusCode = 201 ∧
    (guestCheckout sampleCatalog (guestCheckout sampleCatalog emptyDb sampleGuestReq).db
      sampleGuestReq2).guestUserId =
      (guestCheckout sampleCatalog emptyDb sampleGuestReq).guestUserId := by
  exact C5_amended_idempotent_identity.1 sampleCatalog emptyDb sampleGuestReq "e5f6a7b8"
    (by decide) (by decide) (by decide) (by decide) (by decide)

end OrdersSpec
